import Mathlib

/-!
Verification of the fraud-detection orchestration engine
(`src/backend/langchain/workflow_graph.py`, `src/langchain/tools.py`,
`src/backend/app.py`, `src/backend/main.py`).

The Python code is shallowly embedded: every content-bearing operation of the
orchestrator (string heuristics, state updates of the LangGraph nodes, routing)
is translated into executable Lean definitions.  Python strings are modelled by
Lean `String` (a wrapper around `List Char`); the string primitives used by the
source (`in`, `split`, `strip`, `lower`, `re.findall`) are reimplemented below
with Python semantics.  The inputs analysed here are ASCII, so the ASCII-only
behaviour of `Char.toLower` / `Char.isAlpha` coincides with Python's
Unicode-aware `str.lower` / `\w` on every string that occurs.
-/

namespace FraudDetection

/-! ## Python string primitives -/

/-- Python `needle in hay` (substring containment) on character lists. -/
def infixOfAux (needle : List Char) : List Char → Bool
  | [] => needle.isEmpty
  | c :: rest => needle.isPrefixOf (c :: rest) || infixOfAux needle rest

/-- Python `sub in s` for strings. -/
def containsSub (s sub : String) : Bool :=
  infixOfAux sub.data s.data

/-- Python `s.lower()` (ASCII). -/
def pyLower (s : String) : String :=
  String.mk (s.data.map Char.toLower)

/-- Python `s.strip()` (default whitespace stripping, ASCII whitespace). -/
def stripList (l : List Char) : List Char :=
  ((l.dropWhile Char.isWhitespace).reverse.dropWhile Char.isWhitespace).reverse

/-- Python `s.strip()` for strings. -/
def pyStrip (s : String) : String :=
  String.mk (stripList s.data)

/-- Core of Python `s.split(sep)` for a non-empty separator: split at every
left-most non-overlapping occurrence.  The fuel argument makes the recursion
structural (each step consumes at least one character, so fuel equal to the
input length is always sufficient; the exhaustion branch is unreachable).
(Python raises on an empty separator; every separator used by the source is a
non-empty literal, and an empty separator is treated as never matching here.) -/
def pysplitCore (fuel : Nat) (sep : List Char) (l : List Char) : List (List Char) :=
  match fuel, l with
  | _, [] => [[]]
  | 0, l => [l]
  | fuel + 1, c :: rest =>
    if sep.isPrefixOf (c :: rest) && !sep.isEmpty then
      [] :: pysplitCore fuel sep ((c :: rest).drop sep.length)
    else
      match pysplitCore fuel sep rest with
      | [] => [[c]]
      | seg :: segs => (c :: seg) :: segs

/-- Python `s.split(sep)` for strings. -/
def pysplit (s sep : String) : List String :=
  (pysplitCore s.data.length sep.data s.data).map String.mk

/-- Helper for Python `s.split(sep, 1)`: locate the first occurrence of `sep`
and return the text before and after it, if any. -/
def splitFirstOcc (sep : List Char) : List Char → Option (List Char × List Char)
  | [] => none
  | c :: rest =>
    if sep.isPrefixOf (c :: rest) && !sep.isEmpty then
      some ([], (c :: rest).drop sep.length)
    else
      match splitFirstOcc sep rest with
      | some (pre, post) => some (c :: pre, post)
      | none => none

/-- Python `s.split(sep, 1)` (maxsplit = 1) for strings. -/
def pysplitMax1 (s sep : String) : List String :=
  match splitFirstOcc sep.data s.data with
  | some (a, b) => [String.mk a, String.mk b]
  | none => [s]

/-! ## URL extraction
`re.findall(r'https?://(?:[-\w.]|(?:%[\da-fA-F]{2}))+', user_query)`
(workflow_graph.py line 140).  The character class admits `-`, word
characters, `.`, and percent-encoded pairs; nothing else (in particular no
`/`, `?`, `=` or `&`). -/

/-- `\w` (ASCII): letters, digits, underscore. -/
def isWordChar (c : Char) : Bool :=
  c.isAlpha || c.isDigit || c = '_'

/-- The regex character class `[-\w.]`. -/
def isUrlBodyChar (c : Char) : Bool :=
  c = '-' || isWordChar c || c = '.'

/-- `[\da-fA-F]`. -/
def isHexChar (c : Char) : Bool :=
  c.isDigit || ('a' ≤ c && c ≤ 'f') || ('A' ≤ c && c ≤ 'F')

/-- Number of characters consumed by one unit of the regex alternation
`(?:[-\w.]|(?:%[\da-fA-F]{2}))` at the head of the input (`0` = no match). -/
def urlUnitLen (l : List Char) : Nat :=
  match l with
  | [] => 0
  | c :: rest =>
    if isUrlBodyChar c then 1
    else if c = '%' then
      match rest with
      | h1 :: h2 :: _ => if isHexChar h1 && isHexChar h2 then 3 else 0
      | _ => 0
    else 0

/-- Greedy match of `(?:[-\w.]|(?:%[\da-fA-F]{2}))*` (fuel-structured; each
step consumes at least one character, so fuel equal to the input length is
sufficient): the matched characters and the remaining input. -/
def urlBody (fuel : Nat) (l : List Char) : List Char × List Char :=
  match fuel, l with
  | _, [] => ([], [])
  | 0, l => ([], l)
  | fuel + 1, l =>
    if urlUnitLen l = 0 then ([], l)
    else
      let p := urlBody fuel (l.drop (urlUnitLen l))
      (l.take (urlUnitLen l) ++ p.1, p.2)

/-- Match of the regex prefix `https?://` (greedy `s?`; after `http` fails
with `s`, backtracking retries without it, which can never succeed when the
`https://` branch already failed on `:`). -/
def matchScheme (l : List Char) : Option (List Char × List Char) :=
  if List.isPrefixOf ['h','t','t','p','s',':','/','/'] l then
    some (['h','t','t','p','s',':','/','/'], l.drop 8)
  else if List.isPrefixOf ['h','t','t','p',':','/','/'] l then
    some (['h','t','t','p',':','/','/'], l.drop 7)
  else none

/-- `re.findall` scan (fuel-structured; fuel equal to the input length is
sufficient): try a match at every position, non-overlapping, advancing one
character on failure (a scheme match followed by an empty body is a failed
match, since `+` requires at least one repetition). -/
def findUrls (fuel : Nat) (l : List Char) : List (List Char) :=
  match fuel, l with
  | _, [] => []
  | 0, _ => []
  | fuel + 1, c :: rest =>
    match matchScheme (c :: rest) with
    | some (pre, r) =>
      let p := urlBody r.length r
      if p.1.isEmpty then findUrls fuel rest
      else (pre ++ p.1) :: findUrls fuel p.2
    | none => findUrls fuel rest

/-- URL extraction from the user query (workflow_graph.py lines 139-141). -/
def extract_urls (q : String) : List String :=
  (findUrls q.data.length q.data).map String.mk

/-! ## Text-signal extraction (workflow_graph.py `llm_node`) -/

/-- The marker-section extraction, identical at its three occurrences
(workflow_graph.py lines 208-218, 296-303 and 324-334); `content` is the
already lower-cased reply and is assumed to contain the marker:
`content.split("final conclusion")[1].strip()`, then the text after a colon
if one is present, then truncation at the first paragraph break, else at the
first line break. -/
def markerExtract (content : String) : String :=
  let fc := pyStrip ((pysplit content "final conclusion").getD 1 "")
  let fc := if containsSub fc ":" then pyStrip ((pysplitMax1 fc ":").getD 1 "") else fc
  if containsSub fc "\n\n" then pyStrip ((pysplit fc "\n\n").getD 0 "")
  else if containsSub fc "\n" then pyStrip ((pysplit fc "\n").getD 0 "")
  else fc

/-- Conclusion extraction as performed in the news-verification branch
(workflow_graph.py lines 206-223): the marker algorithm when the marker is
present, with a fallback to the trimmed last paragraph whenever the marker is
absent or the marker extraction produced the empty string. -/
def extractConclusionNews (content : String) : String :=
  let fc := if containsSub content "final conclusion" then markerExtract content else ""
  if fc = "" then pyStrip ((pysplit content "\n\n").getLastD "") else fc

/-- The fake-news markers of workflow_graph.py line 230. -/
def hasFakeMarker (content : String) : Bool :=
  containsSub content "fake" || containsSub content "false" ||
    containsSub content "not supported" || containsSub content "no evidence"

/-- The legitimate-news markers of workflow_graph.py line 233. -/
def hasLegitMarker (content : String) : Bool :=
  containsSub content "legitimate" || containsSub content "supported" ||
    containsSub content "confirmed" || containsSub content "real"

/-- News-verification reply classification (workflow_graph.py lines 230-239):
`true` = fake.  The `if`/`elif`/`else` chain checks the fake markers first,
then the legitimate markers, and defaults to `true`. -/
def classifyNewsReply (content : String) : Bool :=
  if hasFakeMarker content then true
  else if hasLegitMarker content then false
  else true

/-- The fixed irrelevance marker table (workflow_graph.py lines 275-286). -/
def irrelevantIndicators : List String :=
  ["i am a fraud detection assistant",
   "i can only help with",
   "i\x27m a fraud detection assistant",
   "i\x27m designed to analyze",
   "not related to fraud detection",
   "doesn\x27t contain any email, sms, url, or news",
   "not an email, sms, url, or news",
   "please provide a digital communication",
   "i can only assist with fraud detection",
   "not within my scope"]

/-- Default summary for irrelevant inputs (workflow_graph.py line 307). -/
def defaultIrrelevantMsg : String :=
  "I am a fraud detection assistant. I can only help with analyzing potential fraud in digital communications (emails, SMS, URLs, or news)."

/-! ## Data model (workflow_graph.py `State`, tools as typed capabilities) -/

/-- A tool-call request carried by an assistant message.  `args` models the
canonical serialization `str(tool_args)` of the arguments dict, which is all
the dispatcher uses to build the deduplication signature. -/
structure ToolCall where
  name : String
  args : String
  id : String
deriving DecidableEq, Repr

/-- One news-article entry of the mapping returned by the news fetcher.
`fields` is an articles dict entry (optional description/source keys);
`raw` models the string value of the `error` mapping returned by
`fetch_real_time_news_tool` on failure. -/
inductive NewsDetail
  | fields (description : Option String) (source : Option String)
  | raw (s : String)
deriving DecidableEq, Repr

/-- A conversation turn (LangChain message). -/
inductive Msg
  | system (content : String)
  | user (content : String)
  | ai (content : String) (tool_calls : List ToolCall)
  | tool (content : String) (tool_call_id : String)
deriving DecidableEq, Repr

/-- The LangGraph state record (workflow_graph.py lines 11-35).  Fields that
the HTTP layer initializes to `None` and that the code reads only through
truthiness tests are `Option`-typed. -/
structure GState where
  user_query : String
  input_types : List String
  messages : List Msg
  available_tools : List String
  list_of_actions : List String
  is_fraud_url : Option Bool
  is_fraud_sms : Option Bool
  is_fraud_email : Option Bool
  fetched_news : Option (List (String × NewsDetail))
  final_reasoning_summary : Option String
  url_list : List String
  executed_tools : List String
  is_fake_news : Option Bool
  news_verification_requested : Option Bool
  is_irrelevant_input : Option Bool
deriving DecidableEq, Repr

/-- Python truthiness of an optional string (`None` and `""` are falsy). -/
def truthyS : Option String → Bool
  | none => false
  | some s => !(s == "")

/-- Python truthiness of an optional bool (`None` and `False` are falsy). -/
def truthyB : Option Bool → Bool
  | none => false
  | some b => b

/-- Python truthiness of the optional fetched-news mapping (`None` and the
empty dict are falsy). -/
def truthyNews : Option (List (String × NewsDetail)) → Bool
  | none => false
  | some l => !l.isEmpty

/-! ## Prompt texts
The prompt strings are inert for every property proved below (no code path
inspects their content); they reproduce the source texts (workflow_graph.py
lines 43-69, 147-157, 178-196 and 254-260) with the surrounding indentation
whitespace of the Python triple-quoted literals omitted. -/

/-- The system prompt (workflow_graph.py lines 43-69), stored once at the
front of the message log. -/
def SYSTEM_PROMPT : String :=
  "You are a fraud detection assistant that helps users identify potential fraud in digital communications.\nYour job is to analyze the user\x27s query and determine what type of content it contains (email, SMS, URL, news) and check for signs of fraud.\nFollow these steps for each user input. Analyze the content, extract any URLs, use the appropriate fraud detection tools, and provide a clear explanation of your findings. After completing your analysis, ALWAYS provide a final conclusion that summarizes your findings."

/-- Python `repr` of a list of strings, used by the bootstrap f-string. -/
def pyListRepr (l : List String) : String :=
  "[" ++ String.intercalate ", " (l.map (fun s => "\x27" ++ s ++ "\x27")) ++ "]"

/-- The bootstrap instruction message (workflow_graph.py lines 147-157). -/
def bootstrapInstruction (extracted_urls : List String) : String :=
  "Before responding to the user, analyze the query and determine what types of content this might be (email, SMS, URL, news). I\x27ve already extracted these URLs from the query: "
    ++ (if extracted_urls.isEmpty then "None" else pyListRepr extracted_urls)
    ++ ". Decide which tools you need to use for fraud detection, update your understanding based on tool results, mark irrelevant queries as irrelevant, and end your response with a clear FINAL CONCLUSION paragraph summarizing your findings."

/-- Rendering of the fetched articles for the verification prompt
(workflow_graph.py lines 167-175): for each entry, the title line, the
optional description and source lines, then a blank line.  A `raw` detail is
the string value of the error mapping produced by a failed fetch; it carries
no description/source keys (Python would raise a TypeError if the error text
contained the words "description" or "source", which never occurs for the
texts considered here). -/
def buildNewsContext (news : List (String × NewsDetail)) : String :=
  (news.enumFrom 1).foldl
    (fun acc e =>
      match e with
      | (i, (title, NewsDetail.fields d s)) =>
        acc ++ "Article " ++ toString i ++ ": " ++ title ++ "\n"
          ++ (match d with | some dv => "Description: " ++ dv ++ "\n" | none => "")
          ++ (match s with | some sv => "Source: " ++ sv ++ "\n" | none => "")
          ++ "\n"
      | (i, (title, NewsDetail.raw _)) =>
        acc ++ "Article " ++ toString i ++ ": " ++ title ++ "\n" ++ "\n")
    ""

/-- The news-verification prompt (workflow_graph.py lines 178-196). -/
def newsVerifyPrompt (user_query news_context : String) : String :=
  "News verification required. The user query was: \"" ++ user_query
    ++ "\". I\x27ve retrieved the following news articles:\n\n" ++ news_context
    ++ "\nPlease analyze these articles and determine whether they support, contradict, or have no relation to the user\x27s claim, and whether the claim is likely to be legitimate news or fake news. IMPORTANT: End your analysis with a clear FINAL CONCLUSION paragraph that states whether the news is FAKE or LEGITIMATE."

/-- The post-tool-results nudge (workflow_graph.py lines 254-260). -/
def TOOL_RESULTS_PROMPT : String :=
  "Based on the tool results you\x27ve received, update your assessment of potential fraud, decide if you need more information from other tools, provide a final assessment to the user if you have gathered enough information, and end your response with a clear FINAL CONCLUSION paragraph summarizing your findings."

/-! ## The LLM node (workflow_graph.py lines 91-372) -/

/-- The news-verification trigger condition, identical at workflow_graph.py
lines 160, 263 and 478-479: news fetched (truthy) and not yet verified and
verification not yet requested. -/
def newsCond (st : GState) : Bool :=
  truthyNews st.fetched_news && st.is_fake_news.isNone && !truthyB st.news_verification_requested

/-- The outcome of one model invocation: a reply (content and, for the
tool-bound model, tool-call requests), or a raised exception with message.
The news-verification branch invokes the un-bound chat model (`llm.invoke`,
line 200), whose replies carry no tool-call requests; the other branches
invoke `llm_with_tools` (line 265). -/
inductive LLMResult
  | ok (content : String) (tool_calls : List ToolCall)
  | failure (err : String)
deriving DecidableEq, Repr

def isSystemMsg : Msg → Bool
  | .system _ => true
  | _ => false

def isToolMsg : Msg → Bool
  | .tool _ _ => true
  | _ => false

def isAIMsg : Msg → Bool
  | .ai _ _ => true
  | _ => false

/-- Lines 131-132: insert the system prompt at position 0 unless one is
already present. -/
def ensureSystem (msgs : List Msg) : List Msg :=
  if msgs.any isSystemMsg then msgs else Msg.system SYSTEM_PROMPT :: msgs

/-- Python `messages[-3:]`. -/
def takeLast (n : Nat) (l : List Msg) : List Msg :=
  l.drop (l.length - n)

/-- Bootstrap (workflow_graph.py lines 135-157): append the user query,
extract URLs from it, record them, and append the instruction message. -/
def bootstrapStep (st : GState) : GState :=
  let msgs := st.messages ++ [Msg.user st.user_query]
  let urls := extract_urls st.user_query
  let st :=
    if !urls.isEmpty then
      { st with url_list := urls,
                list_of_actions := st.list_of_actions
                  ++ ["Extracted " ++ toString urls.length ++ " URLs from user query"] }
    else st
  { st with messages := msgs ++ [Msg.system (bootstrapInstruction urls)] }

/-- First post-reply block (workflow_graph.py lines 269-317), executed while
`input_types` is still empty: irrelevance detection, else content-type
detection.  In the irrelevant branch the summary is set from the marker
algorithm when the marker is present (no fallback — possibly the empty
string), else to the fixed default sentence. -/
def detectStep (st : GState) (content : String) : GState :=
  let lc := pyLower content
  let detected := ["email", "sms", "url", "news"].filter (fun t => containsSub lc t)
  if irrelevantIndicators.any (fun ind => containsSub lc ind) then
    let st := { st with
      is_irrelevant_input := some true,
      input_types := ["irrelevant"],
      list_of_actions := st.list_of_actions
        ++ ["Detected irrelevant input not related to fraud detection"] }
    let st := { st with
      final_reasoning_summary :=
        some (if containsSub lc "final conclusion" then markerExtract lc
              else defaultIrrelevantMsg) }
    { st with list_of_actions := st.list_of_actions
        ++ ["Set final reasoning summary for irrelevant input"] }
  else if !detected.isEmpty then
    let st := { st with
      input_types := detected,
      list_of_actions := st.list_of_actions
        ++ ["Detected input types: " ++ String.intercalate ", " detected] }
    if detected.contains "news" && st.is_fake_news.isNone then
      { st with is_fake_news := none,
                list_of_actions := st.list_of_actions ++ ["Marked news for verification"] }
    else st
  else st

/-- Second post-reply block (workflow_graph.py lines 319-362): when the reply
carries no tool calls and the summary is still falsy, extract the marker
conclusion if the marker is present and derive still-unset verdict flags from
keyword matches on the extracted conclusion. -/
def conclusionUpdate (st : GState) (content : String) (tool_calls : List ToolCall) : GState :=
  if tool_calls.isEmpty && !truthyS st.final_reasoning_summary then
    let lc := pyLower content
    if containsSub lc "final conclusion" then
      let fc := markerExtract lc
      let st := { st with
        final_reasoning_summary := some fc,
        list_of_actions := st.list_of_actions
          ++ ["Extracted final reasoning summary from conclusion section"] }
      let st :=
        if st.input_types.contains "url" && st.is_fraud_url.isNone then
          if containsSub fc "fraud" || containsSub fc "malicious" || containsSub fc "phishing" then
            { st with is_fraud_url := some true,
                      list_of_actions := st.list_of_actions
                        ++ ["Updated is_fraud_url to True based on conclusion"] }
          else if containsSub fc "safe" || containsSub fc "legitimate" then
            { st with is_fraud_url := some false,
                      list_of_actions := st.list_of_actions
                        ++ ["Updated is_fraud_url to False based on conclusion"] }
          else st
        else st
      let st :=
        if st.input_types.contains "sms" && st.is_fraud_sms.isNone then
          if containsSub fc "fraud" || containsSub fc "scam" then
            { st with is_fraud_sms := some true,
                      list_of_actions := st.list_of_actions
                        ++ ["Updated is_fraud_sms to True based on conclusion"] }
          else if containsSub fc "safe" || containsSub fc "legitimate" then
            { st with is_fraud_sms := some false,
                      list_of_actions := st.list_of_actions
                        ++ ["Updated is_fraud_sms to False based on conclusion"] }
          else st
        else st
      if st.input_types.contains "email" && st.is_fraud_email.isNone then
        if containsSub fc "fraud" || containsSub fc "phishing" || containsSub fc "scam" then
          { st with is_fraud_email := some true,
                    list_of_actions := st.list_of_actions
                      ++ ["Updated is_fraud_email to True based on conclusion"] }
        else if containsSub fc "safe" || containsSub fc "legitimate" then
          { st with is_fraud_email := some false,
                    list_of_actions := st.list_of_actions
                      ++ ["Updated is_fraud_email to False based on conclusion"] }
        else st
      else st
    else st
  else st

/-- The model-invocation section (workflow_graph.py lines 262-368), entered by
fall-through from the bootstrap / post-tool / default branches.  The guard at
line 263 skips the invocation entirely when the news-verification condition
holds.  On success the reply is appended and the two post-reply blocks run;
on a raised exception the apologetic reply is appended and the summary is set
to the error sentence. -/
def invokeStep (st : GState) (resp : LLMResult) : GState :=
  if newsCond st then st
  else
    match resp with
    | .ok content tool_calls =>
      let st := { st with messages := st.messages ++ [Msg.ai content tool_calls] }
      let st := if st.input_types.isEmpty then detectStep st content else st
      conclusionUpdate st content tool_calls
    | .failure _ =>
      { st with
        messages := st.messages
          ++ [Msg.ai "I encountered an error while analyzing your query. Please try again." []],
        final_reasoning_summary := some "Error during analysis. Please try again." }

/-- The news-verification branch (workflow_graph.py lines 160-249): latch the
request flag, append the verification prompt, invoke the un-bound model, then
extract the summary and classify the reply; on a raised exception set the
pessimistic defaults.  Replies of the un-bound model carry no tool calls. -/
def newsVerifyStep (st : GState) (resp : LLMResult) : GState :=
  let st := { st with
    news_verification_requested := some true,
    list_of_actions := st.list_of_actions ++ ["Requesting news verification"] }
  let ctx := buildNewsContext (st.fetched_news.getD [])
  let msgs := st.messages ++ [Msg.system (newsVerifyPrompt st.user_query ctx)]
  match resp with
  | .ok content _ =>
    let msgs := msgs ++ [Msg.ai content []]
    let lc := pyLower content
    let fc := extractConclusionNews lc
    let st := { st with
      messages := msgs,
      final_reasoning_summary := some fc,
      list_of_actions := st.list_of_actions
        ++ ["Extracted final reasoning summary from news verification"] }
    if hasFakeMarker lc then
      { st with is_fake_news := some true,
                list_of_actions := st.list_of_actions
                  ++ ["Determined news is likely fake based on article analysis"] }
    else if hasLegitMarker lc then
      { st with is_fake_news := some false,
                list_of_actions := st.list_of_actions
                  ++ ["Determined news is likely legitimate based on article analysis"] }
    else
      { st with is_fake_news := some true,
                list_of_actions := st.list_of_actions
                  ++ ["News verification inconclusive - treating as potentially fake"] }
  | .failure e =>
    { st with
      messages := msgs
        ++ [Msg.ai "I encountered an error while verifying the news. Treating it as potentially suspicious." []],
      is_fake_news := some true,
      list_of_actions := st.list_of_actions ++ ["Error during news verification: " ++ e],
      final_reasoning_summary :=
        some "Error during news verification. Treating as potentially suspicious." }

/-- The LLM node (workflow_graph.py `llm_node`).  The field-initialization
block of lines 107-128 is the identity on this typed state (every field is
present; falsy list fields are re-set to `[]`).  The branch structure is the
`if`/`elif` chain of lines 135, 160 and 252. -/
def llmNode (st : GState) (resp : LLMResult) : GState :=
  let st := { st with messages := ensureSystem st.messages }
  if st.messages.length == 1 then
    invokeStep (bootstrapStep st) resp
  else if newsCond st then
    newsVerifyStep st resp
  else if decide (1 < st.messages.length) && (takeLast 3 st.messages).any isToolMsg then
    invokeStep { st with messages := st.messages ++ [Msg.system TOOL_RESULTS_PROMPT] } resp
  else
    invokeStep st resp

/-! ## The tool node (workflow_graph.py lines 374-455) -/

/-- The external tools as seen by the dispatcher: `tools_by_name[name].invoke
(tool_args)` returns the tool's typed value or raises (`Except.error`).  Each
function takes the serialized arguments of the call. -/
structure Capabilities where
  url : String → Except String Bool
  sms : String → Except String Bool
  email : String → Except String Bool
  news : String → Except String (List (String × NewsDetail))

/-- The deduplication signature `f"{tool_name}:{str(tool_args)}"`
(workflow_graph.py line 407). -/
def sigOf (c : ToolCall) : String :=
  c.name ++ ":" ++ c.args

/-- `getattr(msg, "tool_calls", [])`. -/
def toolCallsOf : Msg → List ToolCall
  | .ai _ tcs => tcs
  | _ => []

/-- Python `str(result)` for a tool's boolean result. -/
def pyBoolRepr : Bool → String
  | true => "True"
  | false => "False"

/-- Python `str(result)` for the news mapping (inert for every property
proved below; a schematic dict rendering). -/
def newsRepr (n : List (String × NewsDetail)) : String :=
  "\x7b" ++ String.intercalate ", " (n.map (fun e => "\x27" ++ e.1 ++ "\x27: ...")) ++ "\x7d"

/-- The informational duplicate tool-result text (workflow_graph.py line 410). -/
def duplicateNote : String :=
  "Note: This exact tool call has already been executed. Using previous results."

/-- Process one requested tool call (one iteration of the loop at
workflow_graph.py lines 401-450).  The accumulator carries the state being
updated, the tool-result turns collected so far, and — as provenance for the
idempotence analysis — the signatures of the calls actually handed to an
external capability (including raising ones; duplicates and unknown names are
never handed over). -/
def processOne (caps : Capabilities) (acc : GState × List Msg × List String)
    (c : ToolCall) : GState × List Msg × List String :=
  let st := acc.1
  let results := acc.2.1
  let invoked := acc.2.2
  let sig := sigOf c
  if st.executed_tools.contains sig then
    (st, results ++ [Msg.tool duplicateNote c.id], invoked)
  else
    match c.name with
    | "check_fraud_url_tool" =>
      match caps.url c.args with
      | .ok b =>
        ({ st with is_fraud_url := some b,
                   list_of_actions := st.list_of_actions
                     ++ ["Executed check_fraud_url_tool: Result=" ++ pyBoolRepr b],
                   executed_tools := st.executed_tools ++ [sig] },
         results ++ [Msg.tool (pyBoolRepr b) c.id], invoked ++ [sig])
      | .error e =>
        ({ st with list_of_actions := st.list_of_actions
             ++ ["Error executing check_fraud_url_tool: " ++ e] },
         results ++ [Msg.tool ("Tool error: " ++ e) c.id], invoked ++ [sig])
    | "check_fraud_sms_tool" =>
      match caps.sms c.args with
      | .ok b =>
        ({ st with is_fraud_sms := some b,
                   list_of_actions := st.list_of_actions
                     ++ ["Executed check_fraud_sms_tool: Result=" ++ pyBoolRepr b],
                   executed_tools := st.executed_tools ++ [sig] },
         results ++ [Msg.tool (pyBoolRepr b) c.id], invoked ++ [sig])
      | .error e =>
        ({ st with list_of_actions := st.list_of_actions
             ++ ["Error executing check_fraud_sms_tool: " ++ e] },
         results ++ [Msg.tool ("Tool error: " ++ e) c.id], invoked ++ [sig])
    | "check_fraud_email_tool" =>
      match caps.email c.args with
      | .ok b =>
        ({ st with is_fraud_email := some b,
                   list_of_actions := st.list_of_actions
                     ++ ["Executed check_fraud_email_tool: Result=" ++ pyBoolRepr b],
                   executed_tools := st.executed_tools ++ [sig] },
         results ++ [Msg.tool (pyBoolRepr b) c.id], invoked ++ [sig])
      | .error e =>
        ({ st with list_of_actions := st.list_of_actions
             ++ ["Error executing check_fraud_email_tool: " ++ e] },
         results ++ [Msg.tool ("Tool error: " ++ e) c.id], invoked ++ [sig])
    | "fetch_real_time_news_tool" =>
      match caps.news c.args with
      | .ok n =>
        ({ st with fetched_news := some n,
                   list_of_actions := st.list_of_actions
                     ++ ["Executed fetch_real_time_news_tool: Articles fetched"],
                   is_fake_news := none,
                   news_verification_requested := some false,
                   executed_tools := st.executed_tools ++ [sig] },
         results ++ [Msg.tool (newsRepr n) c.id], invoked ++ [sig])
      | .error e =>
        ({ st with list_of_actions := st.list_of_actions
             ++ ["Error executing fetch_real_time_news_tool: " ++ e] },
         results ++ [Msg.tool ("Tool error: " ++ e) c.id], invoked ++ [sig])
    | _ =>
      ({ st with list_of_actions := st.list_of_actions
           ++ ["Error: Unknown tool \x27" ++ c.name ++ "\x27"] },
       results ++ [Msg.tool ("Error: Unknown tool \x27" ++ c.name ++ "\x27") c.id], invoked)

/-- The dispatcher loop over one batch of requested calls, in order. -/
def processCalls (st : GState) (caps : Capabilities) (calls : List ToolCall) :
    GState × List Msg × List String :=
  calls.foldl (processOne caps) (st, [], [])

/-- The tool node (workflow_graph.py `tool_node`): read the tool calls of the
last message, process them, and append the collected tool-result turns to the
message log.  (On an empty message log Python would raise on `messages[-1]`;
that state is unreachable, the router terminates on an empty log.) -/
def toolNode (st : GState) (caps : Capabilities) : GState :=
  match st.messages.getLast? with
  | none => st
  | some last =>
    let tcs := toolCallsOf last
    if tcs.isEmpty then st
    else
      let r := processCalls st caps tcs
      { r.1 with messages := r.1.messages ++ r.2.1 }

/-! ## The termination router (workflow_graph.py `should_continue`, lines 457-540) -/

inductive Route
  | tool_node
  | llm
  | finish
deriving DecidableEq, Repr

/-- `tool_calls and messages[-1] == last_ai_message` (lines 493-498): given
that an assistant message exists, this holds exactly when the very last turn
is an assistant message carrying tool calls. -/
def lastIsAIWithCalls (msgs : List Msg) : Bool :=
  match msgs.getLast? with
  | some (.ai _ tcs) => !tcs.isEmpty
  | _ => false

def lastIsToolMsg (msgs : List Msg) : Bool :=
  match msgs.getLast? with
  | some (.tool _ _) => true
  | _ => false

/-- `executed_all_relevant_tools` (workflow_graph.py lines 510-533). -/
def allRelevantChecked (st : GState) : Bool :=
  if st.input_types.isEmpty then false
  else if st.input_types.contains "irrelevant" then true
  else
    let checks :=
      (if st.input_types.contains "url" then [st.is_fraud_url.isSome] else [])
        ++ (if st.input_types.contains "email" then [st.is_fraud_email.isSome] else [])
        ++ (if st.input_types.contains "sms" then [st.is_fraud_sms.isSome] else [])
        ++ (if st.input_types.contains "news" then [st.is_fake_news.isSome] else [])
    !checks.isEmpty && checks.all id

/-- The termination router: the priority chain of workflow_graph.py lines
470-540. -/
def should_continue (st : GState) : Route :=
  if st.messages.isEmpty then .finish
  else if truthyB st.is_irrelevant_input && truthyS st.final_reasoning_summary then .finish
  else if newsCond st then .llm
  else if !st.messages.any isAIMsg then .finish
  else if lastIsAIWithCalls st.messages then .tool_node
  else if truthyS st.final_reasoning_summary then .finish
  else if st.input_types.contains "news" && st.is_fake_news.isNone
          && truthyNews st.fetched_news then .llm
  else if lastIsToolMsg st.messages && allRelevantChecked st then .llm
  else .finish

/-! ## The HTTP front doors (src/backend/app.py and src/backend/main.py) -/

/-- The fresh conversation state constructed per request (identical dict
literal in app.py lines 66-85 and main.py lines 48-68). -/
def initialState (q : String) : GState where
  user_query := q
  input_types := []
  messages := []
  available_tools :=
    ["check_fraud_email_tool", "check_fraud_sms_tool",
     "check_fraud_url_tool", "fetch_real_time_news_tool"]
  list_of_actions := []
  is_fraud_url := none
  is_fraud_sms := none
  is_fraud_email := none
  fetched_news := none
  final_reasoning_summary := none
  url_list := []
  executed_tools := []
  is_fake_news := none
  news_verification_requested := none
  is_irrelevant_input := none

/-- The serialized `/analyze` response (identical in app.py lines 94-102 and
main.py lines 76-84). -/
structure AnalyzeResponse where
  final_reasoning_summary : Option String
  is_fraud_email : Bool
  is_fraud_sms : Bool
  is_fraud_url : Bool
  is_fake_news : Bool
  is_irrelevant_input : Bool
  actions_taken : List String
deriving DecidableEq, Repr

/-- Python `bool()` on an optional boolean state field (`bool(None) = False`). -/
def pyBool : Option Bool → Bool
  | none => false
  | some b => b

/-- Response serialization: every verdict field is coerced with `bool(...)`. -/
def serializeResponse (st : GState) : AnalyzeResponse where
  final_reasoning_summary := st.final_reasoning_summary
  is_fraud_email := pyBool st.is_fraud_email
  is_fraud_sms := pyBool st.is_fraud_sms
  is_fraud_url := pyBool st.is_fraud_url
  is_fake_news := pyBool st.is_fake_news
  is_irrelevant_input := pyBool st.is_irrelevant_input
  actions_taken := st.list_of_actions

/-- Admission decision of the Flask front door (app.py lines 60-87):
`data.get("user_query")` is `None` for a missing key; any falsy value
(missing key or empty string) yields HTTP 400 before any state is
constructed; otherwise the initial state is built from the query verbatim. -/
def flaskAdmit (user_query : Option String) : Except (Nat × String) GState :=
  match user_query with
  | none => .error (400, "user_query is required")
  | some s => if s = "" then .error (400, "user_query is required") else .ok (initialState s)

/-- Admission decision of the FastAPI front door (main.py lines 10-11 and
43-68): Pydantic validation rejects a missing `user_query` or one shorter
than 10 characters (`min_length=10`) with HTTP 422 before the handler runs;
the handler then strips the query and rejects a whitespace-only query with
HTTP 400; otherwise the initial state is built from the stripped query. -/
def fastapiAdmit (user_query : Option String) : Except (Nat × String) GState :=
  match user_query with
  | none => .error (422, "Field required")
  | some s =>
    if s.length < 10 then .error (422, "String should have at least 10 characters")
    else
      let t := pyStrip s
      if t = "" then .error (400, "user_query must not be empty.")
      else .ok (initialState t)

/-! ## The tool wrappers (src/langchain/tools.py)
Each wrapper delegates to a `FraudDetectionHandler` method and catches any
raised exception itself; the handler is passed in as a function that may
raise (`Except.error`). -/

/-- tools.py lines 8-19: `check_fraud_email_tool`. -/
def check_fraud_email_tool (handler : String → Except String Bool)
    (email_text : String) : Bool :=
  match handler email_text with
  | .ok b => b
  | .error _ => false

/-- tools.py lines 22-33: `check_fraud_sms_tool`. -/
def check_fraud_sms_tool (handler : String → Except String Bool)
    (sms_text : String) : Bool :=
  match handler sms_text with
  | .ok b => b
  | .error _ => false

/-- tools.py lines 36-48: `check_fraud_url_tool` — per-URL verdicts from the
handler, aggregated by strict majority (`count(True) > count(False)`); a
raise inside the comprehension is caught and converted to `False`. -/
def check_fraud_url_tool (handler : String → Except String Bool)
    (url_list : List String) : Bool :=
  match url_list.mapM handler with
  | .ok results => results.count true > results.count false
  | .error _ => false

/-- tools.py lines 51-61: `fetch_real_time_news_tool` — a raise is caught and
converted into the one-entry error mapping (not an empty mapping). -/
def fetch_real_time_news_tool (handler : String → Except String (List (String × NewsDetail)))
    (query : String) : List (String × NewsDetail) :=
  match handler query with
  | .ok n => n
  | .error e => [("error", NewsDetail.raw ("Error fetching news: " ++ e))]

/-! ## Reachability
The compiled graph (workflow_graph.py lines 545-568) starts at the LLM node
and evaluates `should_continue` after every LLM-node step; `tool_node` is
always followed by the LLM node again.  `RouterReachable st` holds exactly
for the states at which the router is evaluated in some run, for arbitrary
model replies and capability behaviours. -/

inductive RouterReachable : GState → Prop
  | start (q : String) (r : LLMResult) :
      RouterReachable (llmNode (initialState q) r)
  | stepLLM {st : GState} (h : RouterReachable st)
      (hr : should_continue st = .llm) (r : LLMResult) :
      RouterReachable (llmNode st r)
  | stepTool {st : GState} (h : RouterReachable st)
      (hr : should_continue st = .tool_node) (caps : Capabilities) (r : LLMResult) :
      RouterReachable (llmNode (toolNode st caps) r)

/-! # Claim C4 — news-verification reply classification -/

/-- The classification as worded by the specification: fake when a fake
marker is present and no legitimate marker, legitimate when a legitimate
marker is present and no fake marker, and `true` in every other case
(markers from both sets, or from neither set). -/
def specNewsVerdict (content : String) : Bool :=
  if hasFakeMarker content && !hasLegitMarker content then true
  else if hasLegitMarker content && !hasFakeMarker content then false
  else true

/-- C4: for every lower-cased verification reply, the verdict computed by the
news-verification branch is fake (`true`) when the reply contains a fake
marker and no legitimate marker, legitimate (`false`) when it contains a
legitimate marker and no fake marker, and defaults to `true` in every other
case (both kinds of markers, or neither).  The `if`/`elif`/`else` chain of the
code is extensionally equal to this case analysis. -/
theorem c4_news_reply_classification (content : String) :
    classifyNewsReply content = specNewsVerdict content := by
  unfold classifyNewsReply specNewsVerdict
  cases h1 : hasFakeMarker content <;> cases h2 : hasLegitMarker content <;> simp [h1, h2]

/-! # Claim C6 — URL extraction -/

/-- C6 counterexample: the regex character class admits only `-`, word
characters, `.` and percent-escapes, so the match for the second URL stops at
the `/` that begins the path; the claimed output (with path and query string)
is not what the extraction returns. -/
theorem c6_counterexample :
    extract_urls "visit https://a.com and https://b.com/x?y=1"
      ≠ ["https://a.com", "https://b.com/x?y=1"] := by decide

/-- C6 (amended): URL extraction is a pure function of the original query,
applied to it once at bootstrap (`url_list` always equals
`extract_urls user_query` after bootstrap, also when no URL is found), with
order and duplicates preserved; matches stop at any character outside the
class `[-\w.%hex]`, so the example query yields the URLs truncated at the
path: `["https://a.com", "https://b.com"]`. -/
theorem c6_url_extraction :
    (∀ q : String, (bootstrapStep (initialState q)).url_list = extract_urls q)
  ∧ extract_urls "visit https://a.com and https://b.com/x?y=1"
      = ["https://a.com", "https://b.com"]
  ∧ extract_urls "go https://a.com https://a.com now"
      = ["https://a.com", "https://a.com"] := by
  refine ⟨fun q => ?_, by decide, by decide⟩
  by_cases h : (extract_urls q).isEmpty
  · have h2 : extract_urls q = [] := List.isEmpty_iff.mp h
    simp [bootstrapStep, h, h2, initialState]
  · have h2 : ¬ extract_urls q = [] := by simpa [List.isEmpty_iff] using h
    simp [bootstrapStep, initialState, h2]

/-! # Claim C9 — front-door admission -/

/-- C9 counterexample: the FastAPI front door (main.py) declares
`user_query: str = Field(..., min_length=10)`, so the non-empty five-character
query "hello" is rejected by validation (HTTP 422, not 400) and never reaches
analysis, and a missing `user_query` is also answered with 422, not 400. -/
theorem c9_counterexample :
    fastapiAdmit (some "hello")
        = .error (422, "String should have at least 10 characters")
  ∧ "hello" ≠ ""
  ∧ fastapiAdmit none = .error (422, "Field required") := by
  exact ⟨rfl, by decide, rfl⟩

/-- C9 (amended): the Flask front door (app.py) answers HTTP 400 for a
missing or empty `user_query` without constructing any conversation state and
accepts every non-empty query verbatim; the FastAPI front door (main.py)
rejects a missing `user_query` or one shorter than 10 characters with HTTP
422 (Pydantic validation), answers 400 when the stripped query is empty, and
otherwise accepts the stripped query. -/
theorem c9_front_door :
    flaskAdmit none = .error (400, "user_query is required")
  ∧ flaskAdmit (some "") = .error (400, "user_query is required")
  ∧ (∀ s : String, s ≠ "" → flaskAdmit (some s) = .ok (initialState s))
  ∧ fastapiAdmit none = .error (422, "Field required")
  ∧ (∀ s : String, s.length < 10 →
      fastapiAdmit (some s) = .error (422, "String should have at least 10 characters"))
  ∧ (∀ s : String, ¬ s.length < 10 → pyStrip s = "" →
      fastapiAdmit (some s) = .error (400, "user_query must not be empty."))
  ∧ (∀ s : String, ¬ s.length < 10 → pyStrip s ≠ "" →
      fastapiAdmit (some s) = .ok (initialState (pyStrip s))) := by
  refine ⟨rfl, rfl, fun s hs => ?_, rfl, fun s hs => ?_, fun s h1 h2 => ?_, fun s h1 h2 => ?_⟩
  · simp [flaskAdmit, hs]
  · simp [fastapiAdmit, hs]
  · simp [fastapiAdmit, h1, h2]
  · simp [fastapiAdmit, h1, h2]

/-- C9 witness: the amended statement applied at concrete inputs. -/
theorem c9_front_door_witness :
    flaskAdmit (some "check this link") = .ok (initialState "check this link")
  ∧ fastapiAdmit (some "is this a scam?") = .ok (initialState "is this a scam?") := by
  refine ⟨c9_front_door.2.2.1 "check this link" (by decide), ?_⟩
  have h := c9_front_door.2.2.2.2.2.2 "is this a scam?" (by decide) (by decide)
  simpa using h

/-! # Claim C10 — serialization of undetermined verdicts -/

/-- C10: in the serialized `/analyze` response every verdict field still
`None` at termination is coerced through `bool()` and reported `false`, and a
field checked-and-legitimate (`some false`) is reported identically, so the
response cannot distinguish the two. -/
theorem c10_none_verdicts_serialized_false (st : GState) :
    ((st.is_fraud_email = none ∨ st.is_fraud_email = some false) →
      (serializeResponse st).is_fraud_email = false)
  ∧ ((st.is_fraud_sms = none ∨ st.is_fraud_sms = some false) →
      (serializeResponse st).is_fraud_sms = false)
  ∧ ((st.is_fraud_url = none ∨ st.is_fraud_url = some false) →
      (serializeResponse st).is_fraud_url = false)
  ∧ ((st.is_fake_news = none ∨ st.is_fake_news = some false) →
      (serializeResponse st).is_fake_news = false) := by
  refine ⟨fun h => ?_, fun h => ?_, fun h => ?_, fun h => ?_⟩ <;>
    rcases h with h | h <;> simp [serializeResponse, pyBool, h]

/-- C10 witness: applied to the fresh initial state, in which every verdict
is `None`. -/
theorem c10_witness :
    (serializeResponse (initialState "sample query")).is_fraud_email = false
  ∧ (serializeResponse (initialState "sample query")).is_fake_news = false := by
  exact ⟨(c10_none_verdicts_serialized_false (initialState "sample query")).1 (Or.inl rfl),
         (c10_none_verdicts_serialized_false (initialState "sample query")).2.2.2 (Or.inl rfl)⟩

/-! # Claims C3, C7, C8 — the tool dispatcher -/

/-- Whether the capability behind a requested call would return normally
(`false` for raising capabilities and for unknown tool names). -/
def capSucceeds (caps : Capabilities) (c : ToolCall) : Bool :=
  match c.name with
  | "check_fraud_url_tool" => match caps.url c.args with | .ok _ => true | .error _ => false
  | "check_fraud_sms_tool" => match caps.sms c.args with | .ok _ => true | .error _ => false
  | "check_fraud_email_tool" => match caps.email c.args with | .ok _ => true | .error _ => false
  | "fetch_real_time_news_tool" => match caps.news c.args with | .ok _ => true | .error _ => false
  | _ => false

theorem contains_append_singleton (l : List String) (a : String) :
    (l ++ [a]).contains a = true := by
  induction l with
  | nil => simp
  | cons x xs ih => simp_all

/-- A fresh, successful call records its signature and reports exactly one
invocation. -/
theorem processOne_fresh_success (caps : Capabilities) (st : GState)
    (results : List Msg) (invoked : List String) (c : ToolCall)
    (hfresh : st.executed_tools.contains (sigOf c) = false)
    (hok : capSucceeds caps c = true) :
    (processOne caps (st, results, invoked) c).1.executed_tools
        = st.executed_tools ++ [sigOf c]
  ∧ (processOne caps (st, results, invoked) c).2.2 = invoked ++ [sigOf c] := by
  have hmem : sigOf c ∉ st.executed_tools := by simpa using hfresh
  unfold capSucceeds at hok
  split at hok
  · rename_i hname
    cases hres : caps.url c.args with
    | ok v => constructor <;> simp [processOne, hmem, hname, hres]
    | error e => rw [hres] at hok; simp at hok
  · rename_i hname
    cases hres : caps.sms c.args with
    | ok v => constructor <;> simp [processOne, hmem, hname, hres]
    | error e => rw [hres] at hok; simp at hok
  · rename_i hname
    cases hres : caps.email c.args with
    | ok v => constructor <;> simp [processOne, hmem, hname, hres]
    | error e => rw [hres] at hok; simp at hok
  · rename_i hname
    cases hres : caps.news c.args with
    | ok v => constructor <;> simp [processOne, hmem, hname, hres]
    | error e => rw [hres] at hok; simp at hok
  · simp at hok

/-- C3 (amended): when the first of two identically-signed requests in one
batch succeeds (so its signature is recorded), the external capability is
invoked exactly once, the duplicate appends exactly one informational
tool-result turn, its invocation is skipped, and nothing else changes — the
state after both requests is the state after the first.  (The counterexample
shows the success proviso is necessary: a failed first call does not record
the signature, so an identically-signed second request is re-invoked.) -/
theorem c3_duplicate_signature (st : GState) (caps : Capabilities) (c1 c2 : ToolCall)
    (hsig : sigOf c2 = sigOf c1)
    (hfresh : st.executed_tools.contains (sigOf c1) = false)
    (hok : capSucceeds caps c1 = true) :
    processCalls st caps [c1, c2]
      = ((processCalls st caps [c1]).1,
         (processCalls st caps [c1]).2.1 ++ [Msg.tool duplicateNote c2.id],
         [sigOf c1]) := by
  have hB := processOne_fresh_success caps st [] [] c1 hfresh hok
  have hstep : processCalls st caps [c1, c2]
      = processOne caps (processCalls st caps [c1]) c2 := rfl
  have hB1 : processCalls st caps [c1] = processOne caps (st, [], []) c1 := rfl
  have hdup : (processCalls st caps [c1]).1.executed_tools.contains (sigOf c2) = true := by
    apply List.elem_eq_true_of_mem
    rw [hsig, hB1, hB.1]
    simp
  rw [hstep]
  simp only [processOne, hdup, if_true]
  refine Prod.ext rfl (Prod.ext rfl ?_)
  rw [hB1]
  exact hB.2

def c3caps : Capabilities where
  url := fun _ => .ok false
  sms := fun _ => .ok false
  email := fun _ => .error "backend down"
  news := fun _ => .ok []

def c3call1 : ToolCall := { name := "check_fraud_email_tool", args := "args3", id := "id31" }

def c3call2 : ToolCall := { name := "check_fraud_email_tool", args := "args3", id := "id32" }

/-- C3 counterexample: when the first invocation of a signature raises, the
signature is not recorded, so an identical second request is handed to the
external capability again — two invocations for one signature, and the second
request produces an error turn, not the informational duplicate turn. -/
theorem c3_counterexample :
    (processCalls (initialState "q3") c3caps [c3call1, c3call2]).2.2
      = ["check_fraud_email_tool:args3", "check_fraud_email_tool:args3"]
  ∧ (processCalls (initialState "q3") c3caps [c3call1, c3call2]).2.1
      = [Msg.tool "Tool error: backend down" "id31",
         Msg.tool "Tool error: backend down" "id32"] := by
  exact ⟨by decide, by decide⟩

def c3wCaps : Capabilities where
  url := fun _ => .ok false
  sms := fun _ => .ok false
  email := fun _ => .ok true
  news := fun _ => .ok []

def c3wCall1 : ToolCall := { name := "check_fraud_email_tool", args := "argsW", id := "idw1" }

def c3wCall2 : ToolCall := { name := "check_fraud_email_tool", args := "argsW", id := "idw2" }

/-- C3 witness: the amended statement at a concrete successful duplicate. -/
theorem c3_witness :
    processCalls (initialState "q3w") c3wCaps [c3wCall1, c3wCall2]
      = ((processCalls (initialState "q3w") c3wCaps [c3wCall1]).1,
         (processCalls (initialState "q3w") c3wCaps [c3wCall1]).2.1
           ++ [Msg.tool duplicateNote c3wCall2.id],
         [sigOf c3wCall1]) :=
  c3_duplicate_signature (initialState "q3w") c3wCaps c3wCall1 c3wCall2 rfl (by decide) (by decide)

/-- C7 (amended): every successfully executed, non-duplicate dispatch of
`fetch_news` stores the fetched mapping, resets the news verdict to `None`
and the verification latch to `false` — re-arming the verification sub-flow
even when a previous fetch was already verified; a duplicate-signature or
failing dispatch is skipped and resets nothing. -/
theorem c7_fetch_news_resets (st : GState) (caps : Capabilities) (c : ToolCall)
    (n : List (String × NewsDetail))
    (hname : c.name = "fetch_real_time_news_tool")
    (hfresh : st.executed_tools.contains (sigOf c) = false)
    (hok : caps.news c.args = .ok n) :
    (processCalls st caps [c]).1.is_fake_news = none
  ∧ (processCalls st caps [c]).1.news_verification_requested = some false
  ∧ (processCalls st caps [c]).1.fetched_news = some n
  ∧ (processCalls st caps [c]).1.executed_tools = st.executed_tools ++ [sigOf c] := by
  have hmem : sigOf c ∉ st.executed_tools := by simpa using hfresh
  refine ⟨?_, ?_, ?_, ?_⟩ <;> simp [processCalls, processOne, hname, hmem, hok]

def c7caps : Capabilities where
  url := fun _ => .ok false
  sms := fun _ => .ok false
  email := fun _ => .ok false
  news := fun _ => .ok [("headline", NewsDetail.fields none none)]

def c7call : ToolCall := { name := "fetch_real_time_news_tool", args := "args7", id := "id7" }

def c7dupSt : GState :=
  { initialState "q7" with
      executed_tools := ["fetch_real_time_news_tool:args7"],
      fetched_news := some [("old story", NewsDetail.fields none none)],
      is_fake_news := some false,
      news_verification_requested := some true }

/-- C7 counterexample: a dispatch whose signature duplicates an earlier call
is answered with the informational duplicate turn and skipped before the
reset lines run — the verdict and the latch keep their old values, so the
claim does not hold for every dispatch. -/
theorem c7_counterexample :
    (processCalls c7dupSt c7caps [c7call]).1.is_fake_news = some false
  ∧ (processCalls c7dupSt c7caps [c7call]).1.news_verification_requested = some true
  ∧ (processCalls c7dupSt c7caps [c7call]).2.1 = [Msg.tool duplicateNote "id7"] := by
  exact ⟨by decide, by decide, by decide⟩

def c7wSt : GState :=
  { initialState "q7w" with
      fetched_news := some [("old story", NewsDetail.fields none none)],
      is_fake_news := some true,
      news_verification_requested := some true }

/-- C7 witness: a fresh fetch dispatch after a previous fetch was already
verified re-arms the sub-flow. -/
theorem c7_witness :
    (processCalls c7wSt c7caps [c7call]).1.is_fake_news = none
  ∧ (processCalls c7wSt c7caps [c7call]).1.news_verification_requested = some false
  ∧ (processCalls c7wSt c7caps [c7call]).1.fetched_news
      = some [("headline", NewsDetail.fields none none)]
  ∧ (processCalls c7wSt c7caps [c7call]).1.executed_tools
      = c7wSt.executed_tools ++ [sigOf c7call] :=
  c7_fetch_news_resets c7wSt c7caps c7call _ rfl (by decide) rfl

/-- C8 (amended): a failure raised inside a capability handler is caught in
the tool wrapper and converted into `False` (email/SMS/URL) or into the
one-entry error mapping (news — not an empty mapping); the dispatcher then
records that value as an ordinary result (so the verdict field is updated to
`false`).  A failure of the tool invocation itself is caught in the
dispatcher, which appends an error tool-result turn and an audit-log entry
and leaves every verdict field, the news fields and the executed-call record
unchanged; neither failure terminates the conversation loop. -/
theorem c8_capability_failure_handling :
    (∀ e t : String, check_fraud_email_tool (fun _ => .error e) t = false)
  ∧ (∀ e t : String, check_fraud_sms_tool (fun _ => .error e) t = false)
  ∧ (∀ (e : String) (urls : List String), check_fraud_url_tool (fun _ => .error e) urls = false)
  ∧ (∀ e q : String, fetch_real_time_news_tool (fun _ => .error e) q
        = [("error", NewsDetail.raw ("Error fetching news: " ++ e))])
  ∧ (∀ (st : GState) (caps : Capabilities) (c : ToolCall) (e : String),
      st.executed_tools.contains (sigOf c) = false →
      c.name = "check_fraud_email_tool" → caps.email c.args = .error e →
      processCalls st caps [c]
        = ({ st with list_of_actions := st.list_of_actions
               ++ ["Error executing check_fraud_email_tool: " ++ e] },
           [Msg.tool ("Tool error: " ++ e) c.id], [sigOf c]))
  ∧ (∀ (st : GState) (caps : Capabilities) (c : ToolCall) (e : String),
      st.executed_tools.contains (sigOf c) = false →
      c.name = "fetch_real_time_news_tool" → caps.news c.args = .error e →
      processCalls st caps [c]
        = ({ st with list_of_actions := st.list_of_actions
               ++ ["Error executing fetch_real_time_news_tool: " ++ e] },
           [Msg.tool ("Tool error: " ++ e) c.id], [sigOf c])) := by
  refine ⟨fun e t => rfl, fun e t => rfl, fun e urls => ?_, fun e q => rfl,
          fun st caps c e hfresh hname herr => ?_, fun st caps c e hfresh hname herr => ?_⟩
  · cases urls <;> rfl
  · have hmem : sigOf c ∉ st.executed_tools := by simpa using hfresh
    simp [processCalls, processOne, hmem, hname, herr]
  · have hmem : sigOf c ∉ st.executed_tools := by simpa using hfresh
    simp [processCalls, processOne, hmem, hname, herr]

def c8handlerBoom : String → Except String Bool := fun _ => .error "classifier unreachable"

def c8caps : Capabilities where
  url := fun _ => .ok false
  sms := fun _ => .ok false
  email := fun a => .ok (check_fraud_email_tool c8handlerBoom a)
  news := fun _ => .ok []

def c8call : ToolCall := { name := "check_fraud_email_tool", args := "args8", id := "id8" }

/-- C8 counterexample (for the claim as stated): when the handler behind the
email check raises, the wrapper converts the failure into the ordinary result
`False`, and the dispatcher therefore DOES update the corresponding verdict
field (to `some false`), records the call as executed, and logs an ordinary
"Executed" action — not the claimed unchanged-verdict-plus-audit-entry
behaviour. -/
theorem c8_counterexample :
    check_fraud_email_tool c8handlerBoom "you won a prize" = false
  ∧ (processCalls (initialState "q8") c8caps [c8call]).1.is_fraud_email = some false
  ∧ (processCalls (initialState "q8") c8caps [c8call]).1.executed_tools
      = ["check_fraud_email_tool:args8"]
  ∧ (processCalls (initialState "q8") c8caps [c8call]).1.list_of_actions
      = ["Executed check_fraud_email_tool: Result=False"] := by
  exact ⟨by decide, by decide, by decide, by decide⟩

def c8wCaps : Capabilities where
  url := fun _ => .ok false
  sms := fun _ => .ok false
  email := fun _ => .error "invoke failed"
  news := fun _ => .ok []

def c8wCall : ToolCall := { name := "check_fraud_email_tool", args := "args8w", id := "id8w" }

/-- C8 witness: a dispatcher-level failure at a concrete call leaves the
verdict unset. -/
theorem c8_witness :
    (processCalls (initialState "q8w") c8wCaps [c8wCall]).1.is_fraud_email = none := by
  have h := c8_capability_failure_handling.2.2.2.2.1 (initialState "q8w") c8wCaps c8wCall
    "invoke failed" (by decide) rfl rfl
  rw [h]
  rfl

/-! # Claim C5 — conclusion extraction -/

theorem pysplitCore_no_occurrence (sep : List Char) :
    ∀ (fuel : Nat) (l : List Char), infixOfAux sep l = false →
      pysplitCore fuel sep l = [l] := by
  intro fuel
  induction fuel with
  | zero => intro l h; cases l <;> rfl
  | succ n ih =>
    intro l h
    cases l with
    | nil => rfl
    | cons c rest =>
      simp only [infixOfAux, Bool.or_eq_false_iff] at h
      have h2 := ih rest h.2
      simp [pysplitCore, h.1, h2]

/-- When the separator does not occur, Python `split` returns the whole
string as its only chunk. -/
theorem pysplit_no_occurrence (s sep : String) (h : containsSub s sep = false) :
    pysplit s sep = [s] := by
  unfold pysplit
  rw [pysplitCore_no_occurrence sep.data s.data.length s.data h]
  rfl

/-- C5 counterexample: at the normal no-tool-call model turn the code only
runs the marker branch — a markerless reply leaves `final_reasoning_summary`
unset (`None`), while the claimed total extraction would have produced the
last paragraph of the reply (second conjunct). -/
theorem c5_counterexample :
    (llmNode (initialState "is this message safe")
        (.ok "this looks like a perfectly normal greeting to me" [])).final_reasoning_summary
      = none
  ∧ extractConclusionNews "this looks like a perfectly normal greeting to me"
      = "this looks like a perfectly normal greeting to me" := by
  exact ⟨by decide, by decide⟩

/-- C5 (amended): the conclusion extraction of the news-verification branch
is a deterministic total function: with the marker absent it falls back to
the trimmed last paragraph (in particular, with no paragraph break it returns
the whole trimmed text); with the marker present and a non-empty marker
extraction it returns that extraction.  At the normal no-tool-call model
turn, however, only the marker branch runs: a markerless reply leaves the
summary unchanged (unset), and a marker reply stores the marker extraction. -/
theorem c5_extract_final_conclusion :
    (∀ content : String, containsSub content "final conclusion" = false →
        extractConclusionNews content = pyStrip ((pysplit content "\n\n").getLastD ""))
  ∧ (∀ content : String, containsSub content "final conclusion" = true →
        markerExtract content ≠ "" →
        extractConclusionNews content = markerExtract content)
  ∧ (∀ content : String, containsSub content "final conclusion" = false →
        containsSub content "\n\n" = false →
        extractConclusionNews content = pyStrip content)
  ∧ (∀ (st : GState) (content : String),
        containsSub (pyLower content) "final conclusion" = false →
        (conclusionUpdate st content []).final_reasoning_summary
          = st.final_reasoning_summary)
  ∧ (∀ (st : GState) (content : String),
        containsSub (pyLower content) "final conclusion" = true →
        truthyS st.final_reasoning_summary = false →
        (conclusionUpdate st content []).final_reasoning_summary
          = some (markerExtract (pyLower content))) := by
  refine ⟨fun content h => ?_, fun content h1 h2 => ?_, fun content h1 h2 => ?_,
          fun st content h => ?_, fun st content h1 h2 => ?_⟩
  · simp [extractConclusionNews, h]
  · simp [extractConclusionNews, h1, h2]
  · rw [show extractConclusionNews content
        = pyStrip ((pysplit content "\n\n").getLastD "") by simp [extractConclusionNews, h1]]
    rw [pysplit_no_occurrence content "\n\n" h2]
    rfl
  · by_cases hs : truthyS st.final_reasoning_summary <;> simp [conclusionUpdate, hs, h]
  · simp only [conclusionUpdate, h2, h1, List.isEmpty_nil, Bool.not_false, Bool.and_self,
      if_true, Bool.true_and, if_pos]
    simp only [apply_ite (GState.final_reasoning_summary)]
    simp

/-- C5 witness: the amended statement at concrete replies. -/
theorem c5_extract_witness :
    extractConclusionNews "the reply.\n\nthe last paragraph"
      = pyStrip ((pysplit "the reply.\n\nthe last paragraph" "\n\n").getLastD "")
  ∧ extractConclusionNews "a single trimmed reply " = pyStrip "a single trimmed reply "
  ∧ (conclusionUpdate (initialState "w5") "FINAL CONCLUSION: all safe" []).final_reasoning_summary
      = some (markerExtract (pyLower "FINAL CONCLUSION: all safe")) := by
  exact ⟨c5_extract_final_conclusion.1 _ (by decide),
         c5_extract_final_conclusion.2.2.1 _ (by decide) (by decide),
         c5_extract_final_conclusion.2.2.2.2 (initialState "w5") _ (by decide) (by decide)⟩

/-! # Claim C1 — the router terminates once a summary is set
Helper lemmas: which fields each LLM-node branch can touch, and how the
router evaluates on the states those branches produce. -/

theorem detectStep_preserves (st : GState) (content : String) :
    (detectStep st content).messages = st.messages
  ∧ (detectStep st content).fetched_news = st.fetched_news
  ∧ (detectStep st content).is_fake_news = st.is_fake_news
  ∧ (detectStep st content).news_verification_requested = st.news_verification_requested := by
  simp only [detectStep]
  split
  · exact ⟨rfl, rfl, rfl, rfl⟩
  · split
    · split
      · rename_i hn
        simp only [Bool.and_eq_true, Option.isNone_iff_eq_none] at hn
        exact ⟨rfl, rfl, hn.2.symm, rfl⟩
      · exact ⟨rfl, rfl, rfl, rfl⟩
    · exact ⟨rfl, rfl, rfl, rfl⟩

theorem detectStep_summary (st : GState) (content : String) :
    (detectStep st content).is_irrelevant_input = some true
  ∨ ((detectStep st content).final_reasoning_summary = st.final_reasoning_summary
      ∧ (detectStep st content).is_irrelevant_input = st.is_irrelevant_input) := by
  simp only [detectStep]
  split
  · exact Or.inl rfl
  · right
    split
    · split
      · exact ⟨rfl, rfl⟩
      · exact ⟨rfl, rfl⟩
    · exact ⟨rfl, rfl⟩

theorem conclusionUpdate_preserves (st : GState) (content : String) (tcs : List ToolCall) :
    (conclusionUpdate st content tcs).messages = st.messages
  ∧ (conclusionUpdate st content tcs).fetched_news = st.fetched_news
  ∧ (conclusionUpdate st content tcs).is_fake_news = st.is_fake_news
  ∧ (conclusionUpdate st content tcs).news_verification_requested = st.news_verification_requested
  ∧ (conclusionUpdate st content tcs).is_irrelevant_input = st.is_irrelevant_input := by
  refine ⟨?_, ?_, ?_, ?_, ?_⟩ <;>
    simp [conclusionUpdate,
      apply_ite (GState.messages), apply_ite (GState.fetched_news),
      apply_ite (GState.is_fake_news), apply_ite (GState.news_verification_requested),
      apply_ite (GState.is_irrelevant_input)]

theorem conclusionUpdate_summary (st : GState) (content : String) (tcs : List ToolCall) :
    (conclusionUpdate st content tcs).final_reasoning_summary = st.final_reasoning_summary
  ∨ (tcs = []
      ∧ (conclusionUpdate st content tcs).final_reasoning_summary
          = some (markerExtract (pyLower content))) := by
  by_cases hg : (tcs.isEmpty && !truthyS st.final_reasoning_summary) = true
  · by_cases hm : containsSub (pyLower content) "final conclusion" = true
    · right
      have hg1 : tcs = [] := by
        have hg2 := hg
        simp only [Bool.and_eq_true, List.isEmpty_iff] at hg2
        exact hg2.1
      refine ⟨hg1, ?_⟩
      simp only [conclusionUpdate, hg, if_true, hm]
      simp only [apply_ite (GState.final_reasoning_summary)]
      simp
    · left
      simp [conclusionUpdate, hg, hm]
  · left
    simp [conclusionUpdate, hg]

theorem bootstrapStep_preserves (st : GState) :
    (bootstrapStep st).final_reasoning_summary = st.final_reasoning_summary
  ∧ newsCond (bootstrapStep st) = newsCond st := by
  simp only [bootstrapStep]
  split <;> exact ⟨rfl, rfl⟩

/-- Router evaluation: irrelevant input with a truthy summary terminates
(case 2 of the chain). -/
theorem router_finish_of_irrelevant (st : GState)
    (hne : st.messages.isEmpty = false)
    (hirr : truthyB st.is_irrelevant_input = true)
    (hsum : truthyS st.final_reasoning_summary = true) :
    should_continue st = .finish := by
  unfold should_continue
  simp [hne, hirr, hsum]

/-- Router evaluation: a truthy summary terminates whenever the news
condition is off and the last turn is an assistant message without tool
calls (cases 2 or 6 of the chain). -/
theorem router_finish_of_last_ai_nocalls (st : GState) (pre : List Msg) (c : String)
    (hm : st.messages = pre ++ [Msg.ai c []])
    (hnews : newsCond st = false)
    (hsum : truthyS st.final_reasoning_summary = true) :
    should_continue st = .finish := by
  have h1 : st.messages.isEmpty = false := by rw [hm]; simp
  by_cases hirr : truthyB st.is_irrelevant_input = true
  · exact router_finish_of_irrelevant st h1 hirr hsum
  · have h2 : st.messages.any isAIMsg = true := by
      rw [hm]
      simp [isAIMsg]
    have h3 : lastIsAIWithCalls st.messages = false := by
      unfold lastIsAIWithCalls
      rw [hm]
      simp
    unfold should_continue
    simp [h1, hirr, hnews, h2, h3, hsum]

/-- The invocation section: starting from a falsy summary, any state it
produces with a truthy summary is terminal for the router. -/
theorem invokeStep_router (st : GState) (resp : LLMResult)
    (hsum : truthyS st.final_reasoning_summary = false)
    (hpost : truthyS (invokeStep st resp).final_reasoning_summary = true) :
    should_continue (invokeStep st resp) = .finish := by
  by_cases hnc : newsCond st = true
  · rw [show invokeStep st resp = st by simp [invokeStep, hnc]] at hpost
    rw [hsum] at hpost
    exact absurd hpost (by simp)
  · have hnc' : newsCond st = false := by revert hnc; cases newsCond st <;> simp
    cases resp with
    | failure e =>
      have hms : (invokeStep st (.failure e)).messages
          = st.messages ++ [Msg.ai "I encountered an error while analyzing your query. Please try again." []] := by
        simp [invokeStep, hnc']
      have hnw : newsCond (invokeStep st (.failure e)) = false := by
        have hfields : (invokeStep st (.failure e)).fetched_news = st.fetched_news
            ∧ (invokeStep st (.failure e)).is_fake_news = st.is_fake_news
            ∧ (invokeStep st (.failure e)).news_verification_requested
                = st.news_verification_requested := by
          refine ⟨?_, ?_, ?_⟩ <;> simp [invokeStep, hnc']
        unfold newsCond
        rw [hfields.1, hfields.2.1, hfields.2.2]
        exact hnc'
      exact router_finish_of_last_ai_nocalls _ _ _ hms hnw hpost
    | ok content tcs =>
      have heq : invokeStep st (.ok content tcs)
          = conclusionUpdate
              (if st.input_types.isEmpty
               then detectStep { st with messages := st.messages ++ [Msg.ai content tcs] } content
               else { st with messages := st.messages ++ [Msg.ai content tcs] })
              content tcs := by
        simp [invokeStep, hnc']
      set A : GState := { st with messages := st.messages ++ [Msg.ai content tcs] } with hA
      set B : GState := if st.input_types.isEmpty then detectStep A content else A with hB
      have hBmsgs : B.messages = st.messages ++ [Msg.ai content tcs] := by
        rw [hB]
        split
        · rw [(detectStep_preserves A content).1, hA]
        · rw [hA]
      have hBf : B.fetched_news = st.fetched_news
          ∧ B.is_fake_news = st.is_fake_news
          ∧ B.news_verification_requested = st.news_verification_requested := by
        rw [hB]
        split
        · refine ⟨?_, ?_, ?_⟩
          · rw [(detectStep_preserves A content).2.1, hA]
          · rw [(detectStep_preserves A content).2.2.1, hA]
          · rw [(detectStep_preserves A content).2.2.2, hA]
        · rw [hA]
          exact ⟨rfl, rfl, rfl⟩
      have hBnews : newsCond B = false := by
        unfold newsCond at hnc' ⊢
        rw [hBf.1, hBf.2.1, hBf.2.2]
        exact hnc'
      rw [heq] at hpost ⊢
      have hpostnews : newsCond (conclusionUpdate B content tcs) = false := by
        unfold newsCond at hBnews ⊢
        rw [(conclusionUpdate_preserves B content tcs).2.1,
            (conclusionUpdate_preserves B content tcs).2.2.1,
            (conclusionUpdate_preserves B content tcs).2.2.2.1]
        exact hBnews
      have hpostne : (conclusionUpdate B content tcs).messages.isEmpty = false := by
        rw [(conclusionUpdate_preserves B content tcs).1, hBmsgs]
        simp
      by_cases hirr : truthyB (conclusionUpdate B content tcs).is_irrelevant_input = true
      · exact router_finish_of_irrelevant _ hpostne hirr hpost
      · have hBsum : B.final_reasoning_summary = st.final_reasoning_summary := by
          rw [hB]
          by_cases hty : st.input_types.isEmpty = true
          · rw [if_pos hty]
            rcases detectStep_summary A content with hl | hr
            · exfalso
              apply hirr
              rw [(conclusionUpdate_preserves B content tcs).2.2.2.2, hB, if_pos hty, hl]
              rfl
            · rw [hr.1, hA]
          · rw [if_neg hty, hA]
        have htcs : tcs = []
            ∧ (conclusionUpdate B content tcs).final_reasoning_summary
                = some (markerExtract (pyLower content)) := by
          rcases conclusionUpdate_summary B content tcs with hcl | hcr
          · exfalso
            rw [hcl, hBsum, hsum] at hpost
            exact absurd hpost (by simp)
          · exact hcr
        apply router_finish_of_last_ai_nocalls _ st.messages content ?_ hpostnews hpost
        rw [(conclusionUpdate_preserves B content tcs).1, hBmsgs, htcs.1]

/-- The news-verification branch always leaves a terminal state for the
router when its summary is truthy: it latches the verdict (`is_fake_news`
becomes `some _`, so the news condition is off) and appends a reply without
tool calls. -/
theorem newsVerifyStep_router (st : GState) (resp : LLMResult)
    (hpost : truthyS (newsVerifyStep st resp).final_reasoning_summary = true) :
    should_continue (newsVerifyStep st resp) = .finish := by
  cases resp with
  | ok content tcs =>
    by_cases h1 : hasFakeMarker (pyLower content) = true
    · simp only [newsVerifyStep, h1, if_true] at hpost ⊢
      exact router_finish_of_last_ai_nocalls _ _ _ rfl (by simp [newsCond]) hpost
    · by_cases h2 : hasLegitMarker (pyLower content) = true
      · simp only [newsVerifyStep, h1, h2, if_true, if_false, Bool.false_eq_true] at hpost ⊢
        exact router_finish_of_last_ai_nocalls _ _ _ rfl (by simp [newsCond]) hpost
      · simp only [newsVerifyStep, h1, h2, if_false, Bool.false_eq_true] at hpost ⊢
        exact router_finish_of_last_ai_nocalls _ _ _ rfl (by simp [newsCond]) hpost
  | failure e =>
    simp only [newsVerifyStep] at hpost ⊢
    exact router_finish_of_last_ai_nocalls _ _ _ rfl (by simp [newsCond]) hpost

/-- The LLM node: starting from a falsy summary, any state it produces with
a truthy summary is terminal for the router. -/
theorem llmNode_router (st : GState) (resp : LLMResult)
    (hsum : truthyS st.final_reasoning_summary = false)
    (hpost : truthyS (llmNode st resp).final_reasoning_summary = true) :
    should_continue (llmNode st resp) = .finish := by
  unfold llmNode at hpost ⊢
  set st1 : GState := { st with messages := ensureSystem st.messages } with hst1
  have hsum1 : truthyS st1.final_reasoning_summary = false := hsum
  by_cases hb : (st1.messages.length == 1) = true
  · rw [if_pos hb] at hpost ⊢
    have hsb : truthyS (bootstrapStep st1).final_reasoning_summary = false := by
      rw [(bootstrapStep_preserves st1).1]
      exact hsum1
    exact invokeStep_router _ _ hsb hpost
  · rw [if_neg hb] at hpost ⊢
    by_cases hn : newsCond st1 = true
    · rw [if_pos hn] at hpost ⊢
      exact newsVerifyStep_router _ _ hpost
    · rw [if_neg hn] at hpost ⊢
      by_cases ht : (decide (1 < st1.messages.length) && (takeLast 3 st1.messages).any isToolMsg) = true
      · rw [if_pos ht] at hpost ⊢
        exact invokeStep_router _ _ hsum1 hpost
      · rw [if_neg ht] at hpost ⊢
        exact invokeStep_router _ _ hsum1 hpost

theorem processOne_summary (caps : Capabilities) (acc : GState × List Msg × List String)
    (c : ToolCall) :
    (processOne caps acc c).1.final_reasoning_summary = acc.1.final_reasoning_summary := by
  simp only [processOne]
  repeat' split
  all_goals rfl

theorem foldl_processOne_summary (caps : Capabilities) (calls : List ToolCall)
    (acc : GState × List Msg × List String) :
    (calls.foldl (processOne caps) acc).1.final_reasoning_summary
      = acc.1.final_reasoning_summary := by
  induction calls generalizing acc with
  | nil => rfl
  | cons c cs ih => rw [List.foldl_cons, ih, processOne_summary]

/-- The tool node never touches the final reasoning summary. -/
theorem toolNode_summary (st : GState) (caps : Capabilities) :
    (toolNode st caps).final_reasoning_summary = st.final_reasoning_summary := by
  simp only [toolNode]
  split
  · rfl
  · split
    · rfl
    · exact foldl_processOne_summary caps _ _

/-- C1 (amended): for every reachable state at which the router is
evaluated, once `final_reasoning_summary` holds a NON-EMPTY string the router
returns terminate.  (The claim as stated — for every non-`None` value — fails:
the code tests the summary by Python truthiness, and a reachable state can
carry the set-but-empty summary `some ""`; see the counterexample.) -/
theorem c1_router_terminates_once_summary_set (st : GState)
    (h : RouterReachable st)
    (hs : truthyS st.final_reasoning_summary = true) :
    should_continue st = Route.finish := by
  induction h with
  | start q r =>
    exact llmNode_router (initialState q) r rfl hs
  | stepLLM h hr r ih =>
    rename_i st0
    have hsum0 : truthyS st0.final_reasoning_summary = false := by
      cases hval : truthyS st0.final_reasoning_summary
      · rfl
      · rw [ih hval] at hr
        exact absurd hr (by simp)
    exact llmNode_router st0 r hsum0 hs
  | stepTool h hr caps r ih =>
    rename_i st0
    have hsum0 : truthyS st0.final_reasoning_summary = false := by
      cases hval : truthyS st0.final_reasoning_summary
      · rfl
      · rw [ih hval] at hr
        exact absurd hr (by simp)
    have hsumT : truthyS (toolNode st0 caps).final_reasoning_summary = false := by
      rw [toolNode_summary]
      exact hsum0
    exact llmNode_router (toolNode st0 caps) r hsumT hs

def c1tc : ToolCall := { name := "check_fraud_sms_tool", args := "sms_args_1", id := "id1" }

def c1reply : String := "i can only assist with fraud detection. final conclusion"

/-- C1 counterexample: a reachable router state whose summary is SET TO A
NON-`None` VALUE (the empty string: the first assistant reply contains an
irrelevance marker and ends exactly with the marker phrase, so the marker
extraction is empty) on which the router returns `tool_node`, not terminate —
the reply also carries a tool call, and the truthiness test on the empty
summary skips both termination cases. -/
theorem c1_counterexample :
    RouterReachable (llmNode (initialState "tell me a joke") (.ok c1reply [c1tc]))
  ∧ (llmNode (initialState "tell me a joke") (.ok c1reply [c1tc])).final_reasoning_summary
      = some ""
  ∧ should_continue (llmNode (initialState "tell me a joke") (.ok c1reply [c1tc]))
      ≠ Route.finish := by
  refine ⟨RouterReachable.start _ _, by decide, by decide⟩

def c1wReply : String := "i am a fraud detection assistant"

/-- C1 witness: a concrete reachable state with a non-empty summary (the
irrelevance default sentence), on which the amended theorem yields
terminate. -/
theorem c1_witness :
    should_continue (llmNode (initialState "random chatter") (.ok c1wReply [])) = Route.finish :=
  c1_router_terminates_once_summary_set
    (llmNode (initialState "random chatter") (.ok c1wReply []))
    (RouterReachable.start "random chatter" (.ok c1wReply []))
    (by decide)

/-! # Claim C2 — irrelevance blocks all dispatch -/

def c2tc : ToolCall := { name := "check_fraud_email_tool", args := "email_args_2", id := "id2" }

def c2reply : String := "i am a fraud detection assistant. final conclusion"

def c2caps : Capabilities where
  url := fun _ => .ok false
  sms := fun _ => .ok false
  email := fun _ => .ok true
  news := fun _ => .ok []

/-- C2, evaluated at the failing input: the first assistant reply carries an
irrelevance marker (so `is_irrelevant_input` becomes true) together with a
tool call, and its "final conclusion" section is empty, so the extracted
summary is the falsy `""`; the router then skips the irrelevance termination
case and routes to the dispatcher, which executes the capability — after the
step the state is irrelevant AND has a non-empty `executed_tools` and a set
`is_fraud_email`, contradicting the claimed (and spec-stated, and
docstring-stated) invariant. -/
theorem c2_failing_input_dispatches :
    (llmNode (initialState "what is the capital of france") (.ok c2reply [c2tc])).is_irrelevant_input
      = some true
  ∧ should_continue (llmNode (initialState "what is the capital of france") (.ok c2reply [c2tc]))
      = Route.tool_node
  ∧ (toolNode (llmNode (initialState "what is the capital of france") (.ok c2reply [c2tc])) c2caps).executed_tools
      = ["check_fraud_email_tool:email_args_2"]
  ∧ (toolNode (llmNode (initialState "what is the capital of france") (.ok c2reply [c2tc])) c2caps).is_fraud_email
      = some true
  ∧ (toolNode (llmNode (initialState "what is the capital of france") (.ok c2reply [c2tc])) c2caps).is_irrelevant_input
      = some true := by
  refine ⟨by decide, by decide, by decide, by decide, by decide⟩

end FraudDetection
